import Mathlib

/-!
Shallow embedding of `library/ntc_reboot.py` (ntc-ansible).

The module's `main()` is a linear parameter-validation-and-dispatch shim:
parse parameters (with Ansible applying defaults and `choices` validation),
check the pyntc library is importable, check `confirm`, check the
timer/platform restriction, assemble keyword options, build a device client
via `ntc_device`, then `open` / `reboot` / `close` and `exit_json`.

We model one invocation as a pure function from the caller-supplied
parameters, the import-time flag `HAS_PYNTC`, and an environment describing
which external calls raise, to a result (fail_json / exit_json / uncaught
exception) together with the ordered trace of external calls made.
-/

namespace NtcReboot

def PLATFORM_NXAPI : String := "cisco_nxos_nxapi"

def PLATFORM_IOS : String := "cisco_ios"

def PLATFORM_EAPI : String := "arista_eos_eapi"

/-- The `platform_to_device_type` dict, in source order. -/
def platform_to_device_type : List (String × String) :=
  [(PLATFORM_EAPI, "eos"), (PLATFORM_NXAPI, "nxos"), (PLATFORM_IOS, "ios")]

/-- Python dict lookup `platform_to_device_type[p]`, as an `Option`. -/
def lookupDeviceType (p : String) : Option String :=
  (platform_to_device_type.find? (fun kv => kv.fst == p)).map (fun kv => kv.snd)

/-- The `choices` list of the `platform` argument in the argument spec. -/
def platformChoices : List String := [PLATFORM_NXAPI, PLATFORM_IOS, PLATFORM_EAPI]

/-- The `choices` list of the `transport` argument in the argument spec. -/
def transportChoices : List String := ["http", "https"]

def supported_timer_platforms : List String := [PLATFORM_IOS]

/-- The caller-supplied parameters of one invocation.  `confirm` is `false`
when omitted (the argument spec's default); `transport := none` means the
caller omitted it, in which case Ansible substitutes the default `"https"`
before `main`'s body runs.  Required string parameters are plain strings. -/
structure Invocation where
  platform : String
  confirm : Bool := false
  timer : Option Int := .none
  host : String := ""
  username : String := ""
  password : String := ""
  secret : Option String := .none
  transport : Option String := .none
  port : Option Int := .none
deriving DecidableEq, Repr

/-- The keyword options forwarded to `ntc_device`; a field is `none` exactly
when the corresponding key is absent from the `kwargs` dict. -/
structure Kwargs where
  transport : Option String := .none
  port : Option Int := .none
  secret : Option String := .none
deriving DecidableEq, Repr

/-- The three `if x is not None: kwargs[...] = x` statements. -/
def buildKwargs (transport : Option String) (port : Option Int)
    (secret : Option String) : Kwargs :=
  { transport := if transport.isSome then transport else .none,
    port := if port.isSome then port else .none,
    secret := if secret.isSome then secret else .none }

/-- One external call made by the module, with its arguments. -/
inductive Call where
  | factory (deviceType host username password : String) (kwargs : Kwargs)
  | devOpen
  | reboot (confirm : Bool) (timer : Option Int)
  | devClose
deriving DecidableEq, Repr

/-- Which external calls raise in this run, and with what message.
`none` means the call succeeds. -/
structure Env where
  openErr : Option String := .none
  rebootErr : Option String := .none
  closeErr : Option String := .none
deriving DecidableEq, Repr

/-- How the invocation terminates: `module.fail_json(msg=...)`,
`module.exit_json(changed=..., rebooted=...)`, or an uncaught exception
propagating out of `main`. -/
inductive Result where
  | failJson (msg : String)
  | exitJson (changed rebooted : Bool)
  | raised (msg : String)
deriving DecidableEq, Repr

def confirmMsg : String := "confirm must be set to true for this module to work."

def pyntcMsg : String := "pyntc Python library not found."

def timerMsg (platform : String) : String :=
  "Timer parameter not supported on platform " ++ platform ++ "."

/-- One invocation of `main()`: result and ordered trace of external calls.
The first two branches are the argument spec's `choices` validation performed
by the `AnsibleModule` constructor; the rest follows `main`'s body line by
line.  A call that raises still appears in the trace (it was invoked). -/
def run (hasPyntc : Bool) (inv : Invocation) (env : Env) : Result × List Call :=
  if ¬ platformChoices.contains inv.platform then
    (.failJson ("value of platform must be one of: " ++ inv.platform), [])
  else if ¬ transportChoices.contains (inv.transport.getD "https") then
    (.failJson ("value of transport must be one of: " ++ inv.transport.getD "https"), [])
  else if ¬ hasPyntc then
    (.failJson pyntcMsg, [])
  else if ¬ inv.confirm then
    (.failJson confirmMsg, [])
  else if inv.timer.isSome ∧ ¬ supported_timer_platforms.contains inv.platform then
    (.failJson (timerMsg inv.platform), [])
  else
    let kwargs := buildKwargs (some (inv.transport.getD "https")) inv.port inv.secret
    match lookupDeviceType inv.platform with
    | .none => (.raised ("KeyError: " ++ inv.platform), [])
    | .some device_type =>
      let t0 : List Call :=
        [.factory device_type inv.host inv.username inv.password kwargs, .devOpen]
      match env.openErr with
      | .some m => (.raised m, t0)
      | .none =>
        let rcall : Call :=
          match inv.timer with
          | .some t => .reboot true (.some t)
          | .none => .reboot true .none
        let t1 := t0 ++ [rcall]
        match env.rebootErr with
        | .some m => (.raised m, t1)
        | .none =>
          let t2 := t1 ++ [.devClose]
          match env.closeErr with
          | .some m => (.raised m, t2)
          | .none => (.exitJson true true, t2)

/-- The factory call `ntc_device(device_type, host, username, password, **kwargs)`
as it appears in a run that reaches the device stage. -/
def factoryCall (inv : Invocation) (dt : String) : Call :=
  .factory dt inv.host inv.username inv.password
    (buildKwargs (some (inv.transport.getD "https")) inv.port inv.secret)

/-- `True` when the invocation did not fail with `fail_json`. -/
def Result.isFailJson : Result → Bool
  | .failJson _ => true
  | _ => false

/-- Sample invocation: NX-API platform, confirm true, everything else defaulted. -/
def invNxConfirm : Invocation := { platform := "cisco_nxos_nxapi", confirm := true, host := "h", username := "u", password := "p" }

/-- Sample invocation: NX-API platform, confirm left at its default (false). -/
def invNxNoConfirm : Invocation := { platform := "cisco_nxos_nxapi", host := "h", username := "u", password := "p" }

/-- Sample invocation: eAPI platform, confirm false, timer supplied. -/
def invEosTimerNoConfirm : Invocation := { platform := "arista_eos_eapi", confirm := false, timer := some 3, host := "h", username := "u", password := "p" }

/-- Sample invocation: IOS platform, confirm false, timer supplied. -/
def invIosTimerNoConfirm : Invocation := { platform := "cisco_ios", timer := some 5, host := "h", username := "u", password := "p" }

/-- Sample invocation: IOS platform, confirm true, timer supplied. -/
def invIosTimer : Invocation := { platform := "cisco_ios", confirm := true, timer := some 5, host := "h", username := "u", password := "p" }

/-- Sample invocation: eAPI platform, confirm true, timer supplied. -/
def invEosTimer : Invocation := { platform := "arista_eos_eapi", confirm := true, timer := some 5, host := "h", username := "u", password := "p" }

theorem lookupDeviceType_eq (p : String) :
    lookupDeviceType p =
      if p = PLATFORM_EAPI then some "eos"
      else if p = PLATFORM_NXAPI then some "nxos"
      else if p = PLATFORM_IOS then some "ios"
      else .none := by
  by_cases h1 : p = PLATFORM_EAPI
  · subst h1; decide
  · by_cases h2 : p = PLATFORM_NXAPI
    · subst h2; decide
    · by_cases h3 : p = PLATFORM_IOS
      · subst h3; decide
      · have e1 : (PLATFORM_EAPI == p) = false := by
          simp only [beq_eq_false_iff_ne]
          exact fun h => h1 h.symm
        have e2 : (PLATFORM_NXAPI == p) = false := by
          simp only [beq_eq_false_iff_ne]
          exact fun h => h2 h.symm
        have e3 : (PLATFORM_IOS == p) = false := by
          simp only [beq_eq_false_iff_ne]
          exact fun h => h3 h.symm
        simp [lookupDeviceType, platform_to_device_type, List.find?, e1, e2, e3, h1, h2, h3]

theorem mem_platformChoices_of_lookup (p dt : String)
    (h : lookupDeviceType p = some dt) : p ∈ platformChoices := by
  rw [lookupDeviceType_eq] at h
  by_cases h1 : p = PLATFORM_EAPI
  · subst h1; decide
  · by_cases h2 : p = PLATFORM_NXAPI
    · subst h2; decide
    · by_cases h3 : p = PLATFORM_IOS
      · subst h3; decide
      · simp [h1, h2, h3] at h

theorem buildKwargs_some_transport (t : String) (port : Option Int)
    (secret : Option String) :
    buildKwargs (some t) port secret =
      { transport := some t, port := port, secret := secret } := by
  cases port <;> cases secret <;> rfl

/-- C1: with `confirm` omitted (defaulting to false) or set to false, the run
fails via `fail_json` with some message and makes no external call at all
(empty trace), for every platform, environment and library state. -/
theorem confirm_guard_blocks_all (hasPyntc : Bool) (inv : Invocation) (env : Env)
    (hc : inv.confirm = false) :
    (run hasPyntc inv env).2 = [] ∧
    ((run hasPyntc inv env).1).isFailJson = true := by
  by_cases h1 : inv.platform ∈ platformChoices
  · by_cases h2 : inv.transport.getD "https" ∈ transportChoices
    · cases hasPyntc <;> simp [run, Result.isFailJson, h1, h2, hc]
    · simp [run, Result.isFailJson, h1, h2]
  · simp [run, Result.isFailJson, h1]

theorem confirm_guard_blocks_all_witness :
    (run true invNxNoConfirm {}).2 = [] ∧
    ((run true invNxNoConfirm {}).1).isFailJson = true :=
  confirm_guard_blocks_all true invNxNoConfirm {} rfl

/-- C9: with the pyntc library unavailable at import time, any invocation whose
parameters pass the argument-spec choices checks fails with the
library-not-found message and makes no external call, independently of the
confirm and timer values. -/
theorem missing_pyntc_fails_first (inv : Invocation) (env : Env)
    (hp : inv.platform ∈ platformChoices)
    (htr : inv.transport.getD "https" ∈ transportChoices) :
    run false inv env = (.failJson pyntcMsg, []) := by
  simp [run, hp, htr]

theorem missing_pyntc_fails_first_witness :
    run false invIosTimerNoConfirm {} = (.failJson pyntcMsg, []) :=
  missing_pyntc_fails_first invIosTimerNoConfirm {} (by decide) (by decide)

/-- C10: the validation checks run in the fixed order missing-library, confirm,
timer-platform: an invocation violating both the confirm requirement and the
timer-platform restriction reports the confirm error when the library is
present, and reports the missing-library error when it is absent. -/
theorem validation_order_confirm_before_timer (inv : Invocation) (env : Env)
    (hp : inv.platform ∈ platformChoices)
    (htr : inv.transport.getD "https" ∈ transportChoices)
    (hc : inv.confirm = false)
    (ht : inv.timer.isSome = true)
    (hs : inv.platform ∉ supported_timer_platforms) :
    run true inv env = (.failJson confirmMsg, []) ∧
    run false inv env = (.failJson pyntcMsg, []) := by
  constructor <;> simp [run, hp, htr, hc]

theorem validation_order_confirm_before_timer_witness :
    run true invEosTimerNoConfirm {} = (.failJson confirmMsg, []) ∧
    run false invEosTimerNoConfirm {} = (.failJson pyntcMsg, []) :=
  validation_order_confirm_before_timer invEosTimerNoConfirm {} (by decide)
    (by decide) rfl rfl (by decide)

/-- C2: with confirm true, no timer, a platform present in the mapping, and an
error-free environment, the run performs exactly the sequence factory, open,
reboot with confirm true and no timer argument, close, on the mapped device
type, and exits with changed and rebooted both true. -/
theorem happy_path_no_timer (inv : Invocation) (env : Env) (dt : String)
    (hd : lookupDeviceType inv.platform = some dt)
    (hc : inv.confirm = true)
    (ht : inv.timer = .none)
    (htr : inv.transport.getD "https" ∈ transportChoices)
    (ho : env.openErr = .none) (hr : env.rebootErr = .none)
    (hcl : env.closeErr = .none) :
    run true inv env =
      (.exitJson true true,
       [factoryCall inv dt, .devOpen, .reboot true .none, .devClose]) := by
  have hp := mem_platformChoices_of_lookup inv.platform dt hd
  simp [run, factoryCall, hp, htr, hc, ht, hd, ho, hr, hcl]

theorem happy_path_no_timer_witness :
    run true invNxConfirm {} =
      (.exitJson true true,
       [factoryCall invNxConfirm "nxos", .devOpen, .reboot true .none, .devClose]) :=
  happy_path_no_timer invNxConfirm {} "nxos" (by decide) rfl rfl (by decide) rfl rfl rfl

/-- Sample invocation: IOS platform, confirm true, secret, transport and port
all supplied. -/
def invIosFull : Invocation := { platform := "cisco_ios", confirm := true, host := "h", username := "u", password := "p", secret := some "s", transport := some "http", port := some 8080 }

/-- C3 counterexample: an invocation with a timer on a non-IOS platform but
with confirm false fails with the confirm message, which is not the message
naming the platform. -/
theorem timer_platform_message_counterexample :
    run true invEosTimerNoConfirm {} = (.failJson confirmMsg, []) ∧
    confirmMsg ≠ timerMsg "arista_eos_eapi" := by
  constructor
  · decide
  · decide

/-- C3 amended: provided the library is present and confirm is true, an
invocation with a timer supplied and a valid platform other than cisco_ios
fails with the message naming that platform, before any external call,
regardless of the timer value. -/
theorem timer_unsupported_platform_fails (inv : Invocation) (env : Env) (t : Int)
    (hp : inv.platform ∈ platformChoices)
    (htr : inv.transport.getD "https" ∈ transportChoices)
    (hc : inv.confirm = true)
    (ht : inv.timer = some t)
    (hne : inv.platform ≠ PLATFORM_IOS) :
    run true inv env = (.failJson (timerMsg inv.platform), []) := by
  have hs : inv.platform ∉ supported_timer_platforms := by
    simp [supported_timer_platforms, hne]
  simp [run, hp, htr, hc, ht, hs]

theorem timer_unsupported_platform_fails_witness :
    run true invEosTimer {} = (.failJson (timerMsg "arista_eos_eapi"), []) :=
  timer_unsupported_platform_fails invEosTimer {} 5 (by decide) (by decide) rfl rfl
    (by decide)

/-- C4: with platform cisco_ios, confirm true and a timer supplied, validation
passes and, once open succeeds, reboot is invoked with confirm true and a
timer argument equal to the supplied value, unchanged. -/
theorem ios_timer_forwarded (inv : Invocation) (env : Env) (t : Int)
    (hplat : inv.platform = PLATFORM_IOS)
    (hc : inv.confirm = true)
    (ht : inv.timer = some t)
    (htr : inv.transport.getD "https" ∈ transportChoices)
    (ho : env.openErr = .none) :
    Call.reboot true (some t) ∈ (run true inv env).2 := by
  have hp : inv.platform ∈ platformChoices := by rw [hplat]; decide
  have hs : inv.platform ∈ supported_timer_platforms := by rw [hplat]; decide
  have hd : lookupDeviceType inv.platform = some "ios" := by rw [hplat]; decide
  cases her : env.rebootErr <;> cases hec : env.closeErr <;>
    simp [run, hp, htr, hc, ht, hs, hd, ho, her, hec]

theorem ios_timer_forwarded_witness :
    Call.reboot true (some 5) ∈ (run true invIosTimer {}).2 :=
  ios_timer_forwarded invIosTimer {} 5 rfl rfl rfl (by decide) rfl

/-- C5 counterexample: the caller omitted transport, yet the keyword options
forwarded to the device factory contain transport, with the default value
https. -/
theorem omitted_transport_forwarded_counterexample :
    invNxConfirm.transport = .none ∧
    (run true invNxConfirm {}).2.head? =
      some (.factory "nxos" "h" "u" "p"
        { transport := some "https", port := .none, secret := .none }) := by
  constructor
  · rfl
  · decide

/-- C5 amended: in a run that reaches the device factory, secret and port are
forwarded exactly when the caller supplied them, while transport is always
forwarded: the supplied value, or the default https when omitted. -/
theorem kwargs_forwarding (inv : Invocation) (env : Env) (dt : String)
    (hd : lookupDeviceType inv.platform = some dt)
    (hc : inv.confirm = true)
    (htimer : inv.timer.isSome = true → inv.platform ∈ supported_timer_platforms)
    (htr : inv.transport.getD "https" ∈ transportChoices) :
    (run true inv env).2.head? =
      some (.factory dt inv.host inv.username inv.password
        { transport := some (inv.transport.getD "https"),
          port := inv.port, secret := inv.secret }) := by
  have hp := mem_platformChoices_of_lookup inv.platform dt hd
  cases htm : inv.timer with
  | none =>
      cases heo : env.openErr <;> cases her : env.rebootErr <;> cases hec : env.closeErr <;>
        simp [run, hp, htr, hc, hd, htm, buildKwargs_some_transport, heo, her, hec]
  | some t =>
      have hs : inv.platform ∈ supported_timer_platforms := htimer (by rw [htm]; rfl)
      cases heo : env.openErr <;> cases her : env.rebootErr <;> cases hec : env.closeErr <;>
        simp [run, hp, htr, hc, hd, htm, hs, buildKwargs_some_transport, heo, her, hec]

theorem kwargs_forwarding_witness :
    (run true invIosFull {}).2.head? =
      some (.factory "ios" "h" "u" "p"
        { transport := some "http", port := some 8080, secret := some "s" }) :=
  kwargs_forwarding invIosFull {} "ios" (by decide) rfl (by decide) (by decide)

/-- C6 counterexample: when reboot raises, the run terminates with the
connection still open: close is never called after open. -/
theorem close_skipped_on_error_counterexample :
    run true invNxConfirm { rebootErr := some "boom" } =
      (.raised "boom",
       [factoryCall invNxConfirm "nxos", .devOpen, .reboot true .none]) ∧
    Call.devClose ∉ (run true invNxConfirm { rebootErr := some "boom" }).2 := by
  constructor
  · decide
  · decide

/-- C6 amended: close is called exactly in the runs that reach the device and
in which both open and reboot succeed; when open or reboot raises, the run
terminates without the connection being closed. -/
theorem close_iff_open_and_reboot_succeed (hasPyntc : Bool) (inv : Invocation)
    (env : Env) :
    Call.devClose ∈ (run hasPyntc inv env).2 ↔
      (Call.devOpen ∈ (run hasPyntc inv env).2 ∧
       env.openErr = .none ∧ env.rebootErr = .none) := by
  by_cases h1 : inv.platform ∈ platformChoices
  · by_cases h2 : inv.transport.getD "https" ∈ transportChoices
    · cases hasPyntc
      · simp [run, h1, h2]
      · by_cases h3 : inv.confirm
        · cases htm : inv.timer with
          | none =>
              cases hd : lookupDeviceType inv.platform with
              | none => simp [run, h1, h2, h3, htm, hd]
              | some dt =>
                  cases heo : env.openErr <;> cases her : env.rebootErr <;>
                    cases hec : env.closeErr <;>
                    simp [run, h1, h2, h3, htm, hd, heo, her, hec]
          | some t =>
              by_cases hmem : inv.platform ∈ supported_timer_platforms
              · cases hd : lookupDeviceType inv.platform with
                | none => simp [run, h1, h2, h3, htm, hmem, hd]
                | some dt =>
                    cases heo : env.openErr <;> cases her : env.rebootErr <;>
                      cases hec : env.closeErr <;>
                      simp [run, h1, h2, h3, htm, hmem, hd, heo, her, hec]
              · simp [run, h1, h2, h3, htm, hmem]
        · simp [run, h1, h2, h3]
    · simp [run, h1, h2]
  · simp [run, h1]

/-- C7: an error raised by the external library during open, reboot or close
aborts the remaining steps of the sequence, propagates out with its message
unchanged, and no success result is reported. -/
theorem external_error_propagates (inv : Invocation) (env : Env) (dt m : String)
    (hd : lookupDeviceType inv.platform = some dt)
    (hc : inv.confirm = true)
    (htimer : inv.timer.isSome = true → inv.platform ∈ supported_timer_platforms)
    (htr : inv.transport.getD "https" ∈ transportChoices) :
    (env.openErr = some m →
       run true inv env = (.raised m, [factoryCall inv dt, .devOpen])) ∧
    (env.openErr = .none → env.rebootErr = some m →
       run true inv env =
         (.raised m, [factoryCall inv dt, .devOpen, .reboot true inv.timer])) ∧
    (env.openErr = .none → env.rebootErr = .none → env.closeErr = some m →
       run true inv env =
         (.raised m,
          [factoryCall inv dt, .devOpen, .reboot true inv.timer, .devClose])) := by
  have hp := mem_platformChoices_of_lookup inv.platform dt hd
  have hcond : ∀ t, inv.timer = some t → inv.platform ∈ supported_timer_platforms :=
    fun t htm => htimer (by rw [htm]; rfl)
  refine ⟨fun ho => ?_, fun ho her => ?_, fun ho her hec => ?_⟩
  · cases htm : inv.timer with
    | none => simp [run, factoryCall, hp, htr, hc, hd, htm, ho]
    | some t => simp [run, factoryCall, hp, htr, hc, hd, htm, ho, hcond t htm]
  · cases htm : inv.timer with
    | none => simp [run, factoryCall, hp, htr, hc, hd, htm, ho, her]
    | some t => simp [run, factoryCall, hp, htr, hc, hd, htm, ho, her, hcond t htm]
  · cases htm : inv.timer with
    | none => simp [run, factoryCall, hp, htr, hc, hd, htm, ho, her, hec]
    | some t => simp [run, factoryCall, hp, htr, hc, hd, htm, ho, her, hec, hcond t htm]

theorem external_error_propagates_witness :
    run true invNxConfirm { openErr := some "connection refused" } =
      (.raised "connection refused", [factoryCall invNxConfirm "nxos", .devOpen]) :=
  (external_error_propagates invNxConfirm { openErr := some "connection refused" }
    "nxos" "connection refused" (by decide) rfl (by decide) (by decide)).1 rfl

/-- C8: the platform-to-device-type translation is exactly the fixed
three-entry mapping sending cisco_nxos_nxapi to nxos, arista_eos_eapi to eos
and cisco_ios to ios (no other platform is mapped), and a run that passes
validation constructs its client with the device type this mapping assigns to
its platform. -/
theorem platform_device_type_mapping (inv : Invocation) (env : Env) (dt : String)
    (hd : lookupDeviceType inv.platform = some dt)
    (hc : inv.confirm = true)
    (htimer : inv.timer.isSome = true → inv.platform ∈ supported_timer_platforms)
    (htr : inv.transport.getD "https" ∈ transportChoices) :
    (∀ p, lookupDeviceType p =
        if p = PLATFORM_EAPI then some "eos"
        else if p = PLATFORM_NXAPI then some "nxos"
        else if p = PLATFORM_IOS then some "ios"
        else .none) ∧
    (run true inv env).2.head? = some (factoryCall inv dt) := by
  have hp := mem_platformChoices_of_lookup inv.platform dt hd
  refine ⟨lookupDeviceType_eq, ?_⟩
  cases htm : inv.timer with
  | none =>
      cases heo : env.openErr <;> cases her : env.rebootErr <;> cases hec : env.closeErr <;>
        simp [run, factoryCall, hp, htr, hc, hd, htm, heo, her, hec]
  | some t =>
      have hs : inv.platform ∈ supported_timer_platforms := htimer (by rw [htm]; rfl)
      cases heo : env.openErr <;> cases her : env.rebootErr <;> cases hec : env.closeErr <;>
        simp [run, factoryCall, hp, htr, hc, hd, htm, hs, heo, her, hec]

theorem platform_device_type_mapping_witness :
    (run true invIosTimer {}).2.head? = some (factoryCall invIosTimer "ios") :=
  (platform_device_type_mapping invIosTimer {} "ios" (by decide) rfl (by decide)
    (by decide)).2

end NtcReboot
